import Mathlib

/-!
Shallow embedding of the cuenca-python client library (the `Transfer`
resource of `cuenca/resources/transfers.py` and the generic resource
capabilities it relies on), together with theorems settling the claims
about its specification.

The repository sources available are `cuenca/resources/transfers.py`,
`cuenca/__init__.py` and `setup.py`.  The base capabilities
(`Creatable`, `Listable`, `Retrievable` of `cuenca/resources/base.py`),
the field types of `cuenca/types.py` (`StrictPositiveInt`, `Status`,
`Network`) and the external `clabe` / `pydantic` validators are not in
the sources; those parts are modelled from the spec and are marked as
such in their doc comments.

Python values reaching a validator are embedded as `PyValue`; Python's
dynamic HTTP exchange is embedded by passing the server explicitly as a
function from requests to replies, and the current UTC time is passed
explicitly as a `DateTime` argument.
-/

/-- A calendar date, as produced by Python's `datetime.date`. -/
structure Date where
  year : Nat
  month : Nat
  day : Nat
deriving DecidableEq

/-- Zero-pad a numeral to two digits, as Python's ISO date formatting does. -/
def pad2 (n : Nat) : String :=
  if n < 10 then "0" ++ toString n else toString n

/-- Zero-pad a year to four digits, as Python's ISO date formatting does. -/
def pad4 (n : Nat) : String :=
  if n < 10 then "000" ++ toString n
  else if n < 100 then "00" ++ toString n
  else if n < 1000 then "0" ++ toString n
  else toString n

/-- `str(date)` in Python: the ISO-8601 rendering YYYY-MM-DD. -/
def Date.toIso (d : Date) : String :=
  pad4 d.year ++ "-" ++ pad2 d.month ++ "-" ++ pad2 d.day

/-- A UTC timestamp, as produced by `datetime.utcnow()`: a calendar date
plus a time of day.  `.date` is Python's `datetime.date()` accessor. -/
structure DateTime where
  date : Date
  hour : Nat
  minute : Nat
  second : Nat
  microsecond : Nat
deriving DecidableEq

/-- A Python value as it reaches a pydantic validator.  Floats are never
inspected numerically by any validator in this library (they are only
type-rejected), so a float carries its truthiness bit and its literal
rendering rather than an IEEE value. -/
inductive PyValue where
  | none
  | bool (b : Bool)
  | int (n : Int)
  | float (isZero : Bool) (lit : String)
  | str (s : String)
deriving DecidableEq

/-- Python truthiness, as used by the `if not idempotency_key` guard:
`None`, `False`, `0`, `0.0` and the empty string are falsy. -/
def pyFalsy : PyValue → Bool
  | .none => true
  | .bool b => !b
  | .int n => n == 0
  | .float isZero _ => isZero
  | .str s => s == ""

/-- How a value is rendered inside an f-string (`f'...{v}...'`). -/
def PyValue.fstr : PyValue → String
  | .none => "None"
  | .bool b => if b then "True" else "False"
  | .int n => toString n
  | .float _ lit => lit
  | .str s => s

/-- Transfer status enumeration (`cuenca/types.py` is not in the sources).
Modelled from the spec: status is enumerated as created, pending,
submitted, succeeded, failed. -/
inductive Status where
  | created
  | pending
  | submitted
  | succeeded
  | failed
deriving DecidableEq

/-- Transfer network enumeration (`cuenca/types.py` is not in the sources).
Modelled from the spec: an enumerated transfer rail; the particular rails
play no role in any claim, so representative constructors are used. -/
inductive Network where
  | spei
  | internal
deriving DecidableEq

/-- A JSON scalar as it appears in a request body. -/
inductive JVal where
  | str (s : String)
  | int (n : Int)
deriving DecidableEq

/-- An HTTP request as handed to the session collaborator.  For a POST the
payload is in `body`; for a GET the filters are in `queryParams`. -/
structure HttpRequest where
  method : String
  path : String
  queryParams : List (String × String)
  body : List (String × JVal)
deriving DecidableEq

/-- The 17 weights of the CLABE control-digit algorithm: the pattern
3, 7, 1 repeated over the first 17 digits. -/
def clabeWeights17 : List Nat :=
  [3, 7, 1, 3, 7, 1, 3, 7, 1, 3, 7, 1, 3, 7, 1, 3, 7]

/-- The numeric value of a digit character. -/
def charDigit (c : Char) : Nat := c.toNat - 48

/-- The digits of a string, in order. -/
def clabeDigits (s : String) : List Nat := s.data.map charDigit

/-- The CLABE control digit of the first 17 digits: each digit is
multiplied by its weight and reduced mod 10, the products are summed,
and the control digit is `(10 - sum % 10) % 10`.
Modelled from the spec: the `clabe` validator package is not in the
sources; this is the checksum of the CLABE standard the spec names. -/
def clabeControlDigit (s : String) : Nat :=
  let prods := List.zipWith (fun d w => d * w % 10) ((clabeDigits s).take 17) clabeWeights17
  (10 - prods.sum % 10) % 10

/-- CLABE string validity: 18 characters, all digits, and the last digit
equals the control digit computed from the first 17.
Modelled from the spec: the `clabe` validator package is not in the
sources; the spec requires fixed length 18, numeric characters, and a
valid checksum per the CLABE standard. -/
def validClabe (s : String) : Bool :=
  s.data.all Char.isDigit && s.length == 18
    && (clabeDigits s).getLastD 0 == clabeControlDigit s

/-- The pydantic `Clabe` field validator: accepts exactly strings that
pass `validClabe`.  Modelled from the spec: accepts only strings in the
18-digit CLABE format, rejects malformed input with a validation error. -/
def clabeField : PyValue → Option String
  | .str s => if validClabe s then some s else Option.none
  | _ => Option.none

/-- The `StrictPositiveInt` field validator (`cuenca/types.py` is not in
the sources).  Modelled from the spec: accepts only integers > 0; rejects
floats, strings, booleans, zero and negatives. -/
def strictPositiveInt : PyValue → Option Int
  | .int n => if 0 < n then some n else Option.none
  | _ => Option.none

/-- The pydantic `StrictStr` field validator.  Modelled from the spec:
accepts only string-typed values, with no coercion. -/
def strictStr : PyValue → Option String
  | .str s => some s
  | _ => Option.none

/-- The plain pydantic `str` field validator used for `idempotency_key`:
strings pass through and numeric values are coerced to their rendering;
`None` is rejected. -/
def lenientStr : PyValue → Option String
  | .str s => some s
  | .int n => some (toString n)
  | .bool b => some (if b then "True" else "False")
  | .float _ lit => some lit
  | .none => Option.none

/-- The validated request body of `TransferRequest` (pydantic model of
`transfers.py`): account_number is a CLABE, amount a strict positive
integer in centavos, descriptor a strict string, idempotency_key a
string. -/
structure TransferRequest where
  account_number : String
  amount : Int
  descriptor : String
  idempotency_key : String
deriving DecidableEq

/-- Constructing a `TransferRequest` validates every field; the first
field failing its constraint produces a validation error naming it, and
no request object exists in that case. -/
def mkTransferRequest (account_number amount descriptor idempotency_key : PyValue) :
    Except String TransferRequest :=
  match clabeField account_number with
  | Option.none => .error "account_number"
  | some acct =>
    match strictPositiveInt amount with
    | Option.none => .error "amount"
    | some amt =>
      match strictStr descriptor with
      | Option.none => .error "descriptor"
      | some d =>
        match lenientStr idempotency_key with
        | Option.none => .error "idempotency_key"
        | some k => .ok ⟨acct, amt, d, k⟩

/-- `TransferRequest.dict()`: the JSON body of the create request, with
the fields in declaration order. -/
def TransferRequest.toDict (r : TransferRequest) : List (String × JVal) :=
  [("account_number", .str r.account_number),
   ("amount", .int r.amount),
   ("descriptor", .str r.descriptor),
   ("idempotency_key", .str r.idempotency_key)]

/-- A constructed `Transfer` record (the pydantic dataclass of
`transfers.py`). -/
structure Transfer where
  id : String
  created_at : DateTime
  updated_at : DateTime
  account_number : String
  amount : Int
  descriptor : String
  idempotency_key : String
  status : Status
  network : Network
  tracking_key : Option String
deriving DecidableEq

/-- The parsed JSON body of a server reply describing one transfer. -/
structure TransferResponse where
  id : String
  created_at : DateTime
  updated_at : DateTime
  account_number : String
  amount : Int
  descriptor : String
  idempotency_key : String
  status : Status
  network : Network
  tracking_key : Option String
deriving DecidableEq

/-- Deserializing a reply body into a `Transfer` record, field by field.
Modelled from the spec: on success the JSON response is deserialized into
the resource type and returned. -/
def Transfer.ofResponse (r : TransferResponse) : Transfer :=
  { id := r.id
  , created_at := r.created_at
  , updated_at := r.updated_at
  , account_number := r.account_number
  , amount := r.amount
  , descriptor := r.descriptor
  , idempotency_key := r.idempotency_key
  , status := r.status
  , network := r.network
  , tracking_key := r.tracking_key }

/-- What the mocked server sends back for one request. -/
inductive ServerReply where
  | transfer (body : TransferResponse)
  | page (items : List TransferResponse)
  | httpError (code : Nat) (msg : String)

/-- The HTTP session collaborator, embedded as a function from requests
to replies. -/
abbrev Server : Type := HttpRequest → ServerReply

/-- The class-level configuration of the `Transfer` resource: its
endpoint path, its allowed listable query parameters (`_query_params`),
and which capabilities the class declares (it lists `Creatable`,
`Listable`, `Retrievable` as bases). -/
structure ResourceInfo where
  endpoint : String
  queryParams : List String
  creatable : Bool
  listable : Bool
  retrievable : Bool

/-- `Transfer._endpoint = '/transfers'`,
`Transfer._query_params = {account_number, idempotency_key, status}`,
and `Transfer(Creatable, Listable, Retrievable)`. -/
def transferResource : ResourceInfo :=
  { endpoint := "/transfers"
  , queryParams := ["account_number", "idempotency_key", "status"]
  , creatable := true
  , listable := true
  , retrievable := true }

/-- `Transfer._gen_idempotency_key(account_number, amount)`:
the f-string rendering of the current UTC date, the account number and
the amount, joined by colons. -/
def Transfer.genIdempotencyKey (now : DateTime) (account_number amount : PyValue) : String :=
  now.date.toIso ++ ":" ++ account_number.fstr ++ ":" ++ amount.fstr

/-- The `if not idempotency_key` guard of `Transfer.create`: a falsy
argument (None, empty string, ...) is replaced by the generated key. -/
def chosenIdempotencyKey (now : DateTime) (account_number amount idempotency_key : PyValue) :
    PyValue :=
  if pyFalsy idempotency_key then
    PyValue.str (Transfer.genIdempotencyKey now account_number amount)
  else idempotency_key

/-- The outcome of `Transfer.create`. -/
inductive CreateOutcome where
  | validationError (field : String)
  | ok (t : Transfer)
  | serverError (code : Nat) (msg : String)
deriving DecidableEq

/-- How `Creatable.create` handles the reply to its POST.  Modelled from
the spec: on success the JSON response is deserialized into the resource;
a server error is surfaced unchanged; a `page` reply to a POST is a
malformed response, surfaced as a transport-level error. -/
def createOutcomeOfReply : ServerReply → CreateOutcome
  | .transfer body => .ok (Transfer.ofResponse body)
  | .page _ => .serverError 500 "malformed response"
  | .httpError code msg => .serverError code msg

/-- `Transfer.create(account_number, amount, descriptor, idempotency_key=None)`.
A falsy idempotency_key is replaced by the generated one, the
`TransferRequest` is validated, and only on success is a POST of
`req.dict()` sent to the endpoint (this delegation to `Creatable.create`
is modelled from the spec, `base.py` being absent from the sources).
The second component lists the HTTP requests performed, in order; a
validation failure performs none. -/
def Transfer.create (server : Server) (now : DateTime)
    (account_number amount descriptor idempotency_key : PyValue) :
    CreateOutcome × List HttpRequest :=
  let key := chosenIdempotencyKey now account_number amount idempotency_key
  match mkTransferRequest account_number amount descriptor key with
  | .error field => (.validationError field, [])
  | .ok req =>
    let httpReq : HttpRequest :=
      { method := "POST", path := transferResource.endpoint
      , queryParams := [], body := req.toDict }
    (createOutcomeOfReply (server httpReq), [httpReq])

/-- The outcome of `Transfer.list`. -/
inductive ListOutcome where
  | configError (key : String)
  | items (ts : List Transfer)
  | serverError (code : Nat) (msg : String)
deriving DecidableEq

/-- How `Listable.list` handles the reply to its GET.  Modelled from the
spec: page items are deserialized into resource instances; a server
error is surfaced unchanged. -/
def listOutcomeOfReply : ServerReply → ListOutcome
  | .page items => .items (items.map Transfer.ofResponse)
  | .transfer body => .items [Transfer.ofResponse body]
  | .httpError code msg => .serverError code msg

/-- `Transfer.list(**filters)` via `Listable.list`.  Modelled from the
spec: every filter key is checked against the resource's allowed
query-parameter set and a disallowed key fails with a configuration
error before any request; otherwise an authenticated GET with the
filters as query parameters fetches the items.  The second component
lists the HTTP requests performed. -/
def Transfer.list (server : Server) (filters : List (String × String)) :
    ListOutcome × List HttpRequest :=
  match filters.find? (fun kv => !(transferResource.queryParams.contains kv.1)) with
  | some kv => (.configError kv.1, [])
  | Option.none =>
    let httpReq : HttpRequest :=
      { method := "GET", path := transferResource.endpoint
      , queryParams := filters, body := [] }
    (listOutcomeOfReply (server httpReq), [httpReq])

/-- The outcome of `Transfer.retrieve`. -/
inductive RetrieveOutcome where
  | ok (t : Transfer)
  | notFound (msg : String)
  | serverError (code : Nat) (msg : String)
deriving DecidableEq

/-- How `Retrievable.retrieve` handles the reply to its GET.  Modelled
from the spec: the response is deserialized into one resource instance,
a 404 becomes a distinct not-found error, and other failures are
surfaced unchanged. -/
def retrieveOutcomeOfReply : ServerReply → RetrieveOutcome
  | .transfer body => .ok (Transfer.ofResponse body)
  | .page _ => .serverError 500 "malformed response"
  | .httpError 404 msg => .notFound msg
  | .httpError code msg => .serverError code msg

/-- `Transfer.retrieve(id)` via `Retrievable.retrieve`.  Modelled from
the spec: an authenticated GET to `{endpoint}/{id}` returning one
resource instance, or a not-found error on a 404 reply. -/
def Transfer.retrieve (server : Server) (rid : String) :
    RetrieveOutcome × List HttpRequest :=
  let httpReq : HttpRequest :=
    { method := "GET", path := transferResource.endpoint ++ "/" ++ rid
    , queryParams := [], body := [] }
  (retrieveOutcomeOfReply (server httpReq), [httpReq])

/-- One user-visible library operation on the Transfer resource. -/
inductive LibOp where
  | createOp (now : DateTime) (account_number amount descriptor idempotency_key : PyValue)
  | listOp (filters : List (String × String))
  | retrieveOp (rid : String)

/-- Running one library operation with the store of already-constructed
`Transfer` instances passed explicitly: the Python heap of constructed
records becomes explicit state, and every instance an operation
constructs is appended to it. -/
def runOp (server : Server) (store : List Transfer) (op : LibOp) :
    List Transfer × List HttpRequest :=
  match op with
  | .createOp now a m d k =>
    match Transfer.create server now a m d k with
    | (.ok t, reqs) => (store ++ [t], reqs)
    | (_, reqs) => (store, reqs)
  | .listOp filters =>
    match Transfer.list server filters with
    | (.items ts, reqs) => (store ++ ts, reqs)
    | (_, reqs) => (store, reqs)
  | .retrieveOp rid =>
    match Transfer.retrieve server rid with
    | (.ok t, reqs) => (store ++ [t], reqs)
    | (_, reqs) => (store, reqs)

/-- A fixed calendar date used by concrete witnesses. -/
def date0 : Date := { year := 2026, month := 10, day := 12 }

/-- A fixed UTC timestamp used by concrete witnesses. -/
def now0 : DateTime := { date := date0, hour := 9, minute := 30, second := 0, microsecond := 0 }

/-- A second UTC timestamp on the same calendar date as `now0`. -/
def now1 : DateTime := { date := date0, hour := 23, minute := 59, second := 59, microsecond := 7 }

/-- A mocked server reply body whose status is succeeded. -/
def mockResp : TransferResponse :=
  { id := "tr_0123"
  , created_at := now0
  , updated_at := now0
  , account_number := "646180157000000004"
  , amount := 10000
  , descriptor := "payment"
  , idempotency_key := "order-123"
  , status := .succeeded
  , network := .internal
  , tracking_key := Option.none }

/-- A mocked server answering every request with `mockResp`. -/
def mockServer : Server := fun _ => .transfer mockResp

/-- The POST request the C1 scenario expects on the wire. -/
def c1Request : HttpRequest :=
  { method := "POST"
  , path := "/transfers"
  , queryParams := []
  , body := [("account_number", .str "646180157000000004"),
             ("amount", .int 10000),
             ("descriptor", .str "payment"),
             ("idempotency_key", .str "order-123")] }

/-- C1: `Transfer.create('646180157000000004', 10000, 'payment', 'order-123')`
sends a POST to `/transfers` whose body is exactly the four-field dict of
the arguments, and when the mocked server reply carries status
succeeded, the returned Transfer record has status succeeded. -/
theorem transfer_create_scenario (server : Server) (now : DateTime)
    (resp : TransferResponse)
    (hs : server c1Request = .transfer resp)
    (hst : resp.status = Status.succeeded) :
    Transfer.create server now (.str "646180157000000004") (.int 10000)
        (.str "payment") (.str "order-123")
      = (.ok (Transfer.ofResponse resp), [c1Request])
      ∧ (Transfer.ofResponse resp).status = Status.succeeded := by
  have hred : Transfer.create server now (.str "646180157000000004") (.int 10000)
        (.str "payment") (.str "order-123")
      = (createOutcomeOfReply (server c1Request), [c1Request]) := rfl
  rw [hred, hs]
  exact ⟨rfl, hst⟩

/-- C1 witness: the scenario at the concrete mocked server. -/
theorem transfer_create_scenario_witness :
    mockServer c1Request = .transfer mockResp
      ∧ mockResp.status = Status.succeeded
      ∧ (Transfer.create mockServer now0 (.str "646180157000000004") (.int 10000)
            (.str "payment") (.str "order-123")
          = (.ok (Transfer.ofResponse mockResp), [c1Request])
          ∧ (Transfer.ofResponse mockResp).status = Status.succeeded) :=
  ⟨rfl, rfl, transfer_create_scenario mockServer now0 mockResp rfl rfl⟩

/-- C2: when the idempotency_key argument is omitted (`None`), the key
submitted in the request body is `{current_UTC_date}:{account_number}:{amount}`:
the ISO rendering of the UTC calendar date at the time of the call, the
account number and the amount, joined by colons. -/
theorem omitted_key_generated (server : Server) (now : DateTime)
    (a : String) (amt : Int) (d : String)
    (hc : validClabe a = true) (hp : 0 < amt) :
    (Transfer.create server now (.str a) (.int amt) (.str d) PyValue.none).2
      = [{ method := "POST"
         , path := "/transfers"
         , queryParams := []
         , body := [("account_number", .str a),
                    ("amount", .int amt),
                    ("descriptor", .str d),
                    ("idempotency_key",
                     .str (now.date.toIso ++ ":" ++ a ++ ":" ++ toString amt))] }] := by
  simp [Transfer.create, chosenIdempotencyKey, pyFalsy, Transfer.genIdempotencyKey,
    PyValue.fstr, mkTransferRequest, clabeField, strictPositiveInt, strictStr, lenientStr,
    hc, hp, TransferRequest.toDict, transferResource]

/-- C2 witness: the generated key at a concrete date, account and amount. -/
theorem omitted_key_generated_witness :
    validClabe "646180157000000004" = true
      ∧ (0 : Int) < 10000
      ∧ (Transfer.create mockServer now0 (.str "646180157000000004") (.int 10000)
            (.str "payment") PyValue.none).2
        = [{ method := "POST"
           , path := "/transfers"
           , queryParams := []
           , body := [("account_number", .str "646180157000000004"),
                      ("amount", .int 10000),
                      ("descriptor", .str "payment"),
                      ("idempotency_key",
                       .str (now0.date.toIso ++ ":" ++ "646180157000000004" ++ ":" ++ toString (10000 : Int)))] }] :=
  ⟨by decide, by decide,
    omitted_key_generated mockServer now0 "646180157000000004" 10000 "payment"
      (by decide) (by decide)⟩

/-- C4: idempotency-key generation is deterministic as a two-run
property: two invocations with the same account number and amount, made
at possibly different times of the same UTC calendar date, produce
identical key strings. -/
theorem gen_key_deterministic (t1 t2 : DateTime) (a1 a2 m1 m2 : PyValue)
    (hd : t1.date = t2.date) (ha : a1 = a2) (hm : m1 = m2) :
    Transfer.genIdempotencyKey t1 a1 m1 = Transfer.genIdempotencyKey t2 a2 m2 := by
  subst ha hm
  unfold Transfer.genIdempotencyKey
  rw [hd]

/-- C4 witness: two invocations at distinct times of the same day. -/
theorem gen_key_deterministic_witness :
    now0.date = now1.date
      ∧ Transfer.genIdempotencyKey now0 (.str "646180157000000004") (.int 10000)
        = Transfer.genIdempotencyKey now1 (.str "646180157000000004") (.int 10000) :=
  ⟨rfl, gen_key_deterministic now0 now1 _ _ _ _ rfl rfl rfl⟩

/-- C5: the amount validator accepts a value exactly when it is an
integer strictly greater than zero; every non-positive integer and every
non-integer value (floats, strings, booleans, None) is rejected. -/
theorem amount_validation_iff (v : PyValue) :
    (∃ n, strictPositiveInt v = some n) ↔ ∃ n : Int, v = .int n ∧ 0 < n := by
  cases v with
  | int n =>
    by_cases h : 0 < n <;> simp [strictPositiveInt, h]
  | none => simp [strictPositiveInt]
  | bool b => simp [strictPositiveInt]
  | float z l => simp [strictPositiveInt]
  | str s => simp [strictPositiveInt]

/-- C3: when the account_number is not a valid CLABE, or the amount is
not a strictly positive integer, or the descriptor is not a string,
`Transfer.create` produces a validation error and performs no HTTP
request at all. -/
theorem invalid_field_no_request (server : Server) (now : DateTime)
    (a m d k : PyValue)
    (h : clabeField a = Option.none
        ∨ strictPositiveInt m = Option.none
        ∨ strictStr d = Option.none) :
    (Transfer.create server now a m d k).2 = []
      ∧ ∃ f, (Transfer.create server now a m d k).1 = .validationError f := by
  unfold Transfer.create
  rcases h with h | h | h
  · simp [mkTransferRequest, h]
  · cases hc : clabeField a <;> simp [mkTransferRequest, hc, h]
  · cases hc : clabeField a <;> cases hm : strictPositiveInt m <;>
      simp [mkTransferRequest, hc, hm, h]

/-- C3 witness: `Transfer.create('bad-clabe', 10000, 'x')` raises the
validation error and the request list is empty. -/
theorem invalid_field_no_request_witness :
    clabeField (.str "bad-clabe") = Option.none
      ∧ ((Transfer.create mockServer now0 (.str "bad-clabe") (.int 10000)
            (.str "x") PyValue.none).2 = []
        ∧ ∃ f, (Transfer.create mockServer now0 (.str "bad-clabe") (.int 10000)
            (.str "x") PyValue.none).1 = .validationError f) :=
  ⟨by decide,
    invalid_field_no_request mockServer now0 (.str "bad-clabe") (.int 10000)
      (.str "x") PyValue.none (Or.inl (by decide))⟩

/-- C7: a `Transfer.list` call whose filters include a key outside
{account_number, idempotency_key, status} fails with a configuration
error before any HTTP request is made. -/
theorem list_disallowed_filter (server : Server)
    (filters : List (String × String)) (k v : String)
    (hmem : (k, v) ∈ filters)
    (hk : k ∉ transferResource.queryParams) :
    (Transfer.list server filters).2 = []
      ∧ ∃ b, (Transfer.list server filters).1 = .configError b := by
  unfold Transfer.list
  cases hf : filters.find? (fun kv => !(transferResource.queryParams.contains kv.1)) with
  | none =>
    exfalso
    have hnone := List.find?_eq_none.mp hf (k, v) hmem
    simp at hnone
    exact hk hnone
  | some kv => simp

/-- C7 witness: listing with the disallowed filter key `created_before`. -/
theorem list_disallowed_filter_witness :
    ("created_before", "2020-01-01") ∈ [("created_before", "2020-01-01")]
      ∧ "created_before" ∉ transferResource.queryParams
      ∧ ((Transfer.list mockServer [("created_before", "2020-01-01")]).2 = []
        ∧ ∃ b, (Transfer.list mockServer [("created_before", "2020-01-01")]).1
            = .configError b) :=
  ⟨by decide, by decide,
    list_disallowed_filter mockServer [("created_before", "2020-01-01")]
      "created_before" "2020-01-01" (by decide) (by decide)⟩

/-- C8: the Transfer resource is configured as the interface table
states: endpoint `/transfers`, the create, list and retrieve
capabilities, and the listable query-parameter set exactly
{account_number, idempotency_key, status}. -/
theorem transfer_resource_config :
    transferResource.endpoint = "/transfers"
      ∧ transferResource.creatable = true
      ∧ transferResource.listable = true
      ∧ transferResource.retrievable = true
      ∧ ∀ k : String, k ∈ transferResource.queryParams
          ↔ (k = "account_number" ∨ k = "idempotency_key" ∨ k = "status") := by
  refine ⟨rfl, rfl, rfl, rfl, fun k => ?_⟩
  simp [transferResource]

/-- C9: no library operation mutates an already-constructed Transfer
record: running any operation over an explicitly threaded store of
constructed instances leaves every existing record in place and only
appends freshly constructed ones. -/
theorem constructed_transfers_never_mutated (server : Server)
    (store : List Transfer) (op : LibOp) :
    ∃ fresh, (runOp server store op).1 = store ++ fresh := by
  cases op with
  | createOp now a m d k =>
    unfold runOp
    dsimp only
    rcases hc : Transfer.create server now a m d k with ⟨o, reqs⟩
    cases o <;> first
      | exact ⟨_, rfl⟩
      | exact ⟨[], by simp⟩
  | listOp filters =>
    unfold runOp
    dsimp only
    rcases hc : Transfer.list server filters with ⟨o, reqs⟩
    cases o <;> first
      | exact ⟨_, rfl⟩
      | exact ⟨[], by simp⟩
  | retrieveOp rid =>
    unfold runOp
    dsimp only
    rcases hc : Transfer.retrieve server rid with ⟨o, reqs⟩
    cases o <;> first
      | exact ⟨_, rfl⟩
      | exact ⟨[], by simp⟩

/-- C10: a falsy idempotency_key argument (the empty string in
particular) is treated exactly like an omitted one: the call behaves
identically to the `None` call, the guard substitutes the generated
`{date}:{account}:{amount}` key, and that key is never the empty
string. -/
theorem falsy_key_replaced (server : Server) (now : DateTime)
    (a m d k : PyValue) (hk : pyFalsy k = true) :
    Transfer.create server now a m d k = Transfer.create server now a m d PyValue.none
      ∧ chosenIdempotencyKey now a m k
          = PyValue.str (Transfer.genIdempotencyKey now a m)
      ∧ Transfer.genIdempotencyKey now a m ≠ "" := by
  have hch : chosenIdempotencyKey now a m k
      = PyValue.str (Transfer.genIdempotencyKey now a m) := by
    unfold chosenIdempotencyKey
    rw [hk]
    simp
  have hchn : chosenIdempotencyKey now a m PyValue.none
      = PyValue.str (Transfer.genIdempotencyKey now a m) := by
    unfold chosenIdempotencyKey
    rfl
  refine ⟨?_, hch, ?_⟩
  · unfold Transfer.create
    rw [hch, hchn]
  · intro hcontra
    have hlen := congrArg String.length hcontra
    simp only [Transfer.genIdempotencyKey, String.length_append] at hlen
    have h1 : (":" : String).length = 1 := rfl
    have h0 : ("" : String).length = 0 := rfl
    rw [h1, h0] at hlen
    omega

/-- C10 witness: the empty-string key at concrete arguments. -/
theorem falsy_key_replaced_witness :
    pyFalsy (.str "") = true
      ∧ (Transfer.create mockServer now0 (.str "646180157000000004") (.int 10000)
            (.str "payment") (.str "")
          = Transfer.create mockServer now0 (.str "646180157000000004") (.int 10000)
            (.str "payment") PyValue.none
        ∧ chosenIdempotencyKey now0 (.str "646180157000000004") (.int 10000) (.str "")
            = PyValue.str
                (Transfer.genIdempotencyKey now0 (.str "646180157000000004") (.int 10000))
        ∧ Transfer.genIdempotencyKey now0 (.str "646180157000000004") (.int 10000) ≠ "") :=
  ⟨by decide,
    falsy_key_replaced mockServer now0 (.str "646180157000000004") (.int 10000)
      (.str "payment") (.str "") (by decide)⟩

/-- The 18 weights of the full CLABE weighted checksum: the 17 digit
weights followed by weight 1 for the control digit itself. -/
def clabeWeights18 : List Nat := clabeWeights17 ++ [1]

/-- A digit character has numeric value below ten. -/
theorem charDigit_lt_ten (c : Char) (h : c.isDigit = true) : charDigit c < 10 := by
  simp only [Char.isDigit, ge_iff_le, Bool.and_eq_true, decide_eq_true_eq] at h
  have hv : c.val.toNat ≤ 57 := UInt32.toNat_le_of_le (by decide) h.2
  have hc : c.toNat = c.val.toNat := rfl
  unfold charDigit
  omega

/-- For an 18-entry digit list, the last entry equals the control digit
of the first 17 exactly when the full 18-term weighted sum is divisible
by ten. -/
theorem clabe_control_iff (ds : List Nat) (hlen : ds.length = 18)
    (hb : ∀ d ∈ ds, d < 10) :
    (ds.getLastD 0
        = (10 - (List.zipWith (fun d w => d * w % 10) (ds.take 17) clabeWeights17).sum % 10) % 10)
      ↔ (List.zipWith (fun d w => d * w % 10) ds clabeWeights18).sum % 10 = 0 := by
  have hne : ds ≠ [] := by
    intro h
    rw [h] at hlen
    simp at hlen
  have hsplit := List.dropLast_append_getLast hne
  have ht : ds.dropLast.length = 17 := by rw [List.length_dropLast, hlen]
  have htake : ds.take 17 = ds.dropLast := by
    conv_lhs => rw [← hsplit]
    exact List.take_left' ht
  have hlast : ds.getLastD 0 = ds.getLast hne := by
    rw [List.getLastD_eq_getLast?, List.getLast?_eq_getLast ds hne]
    rfl
  have hdl : ds.getLast hne < 10 := hb _ (List.getLast_mem hne)
  have hzip : List.zipWith (fun d w => d * w % 10) ds clabeWeights18
      = List.zipWith (fun d w => d * w % 10) ds.dropLast clabeWeights17
          ++ [ds.getLast hne * 1 % 10] := by
    conv_lhs => rw [← hsplit]
    unfold clabeWeights18
    rw [List.zipWith_append _ _ _ _ _ (by rw [ht]; rfl)]
    rfl
  rw [hlast, htake, hzip, List.sum_append, List.sum_cons, List.sum_nil]
  omega

/-- C6: the CLABE validator accepts exactly the strings of 18 digit
characters whose weighted checksum (digits times the cyclic weights
3, 7, 1, each product reduced mod 10) sums to a multiple of ten; every
string violating the length, digit-only or checksum constraint is
rejected. -/
theorem clabe_validation_iff (s : String) :
    validClabe s = true
      ↔ (s.length = 18
          ∧ (∀ c ∈ s.data, c.isDigit = true)
          ∧ (List.zipWith (fun d w => d * w % 10) (clabeDigits s) clabeWeights18).sum % 10
              = 0) := by
  have hlenmap : (clabeDigits s).length = s.length := by
    simp [clabeDigits]
  simp only [validClabe, Bool.and_eq_true, List.all_eq_true, beq_iff_eq]
  constructor
  · rintro ⟨⟨hdig, hlen⟩, hctrl⟩
    refine ⟨hlen, hdig, ?_⟩
    have hb : ∀ d ∈ clabeDigits s, d < 10 := by
      intro d hd
      obtain ⟨c, hc, rfl⟩ := List.mem_map.mp hd
      exact charDigit_lt_ten c (hdig c hc)
    exact (clabe_control_iff (clabeDigits s) (by rw [hlenmap]; exact hlen) hb).mp hctrl
  · rintro ⟨hlen, hdig, hsum⟩
    have hb : ∀ d ∈ clabeDigits s, d < 10 := by
      intro d hd
      obtain ⟨c, hc, rfl⟩ := List.mem_map.mp hd
      exact charDigit_lt_ten c (hdig c hc)
    exact ⟨⟨hdig, hlen⟩,
      (clabe_control_iff (clabeDigits s) (by rw [hlenmap]; exact hlen) hb).mpr hsum⟩
